import Mathlib

/-!
Verification of the receipt-validation core of `indexer-rs`.

This file shallowly embeds the two source files of the repository:

* `src/crates/tap-agent/src/tap/context/checks/value.rs` — the `Value`
  check of the TAP receipt check pipeline, which compares a receipt's
  claimed value against the node's own appraisal of the query; and
* `src/common/src/indexer_service/http/indexer_service.rs` — the
  service-level error enum `IndexerServiceError`, its mapping to HTTP
  status codes, and its conversion into an HTTP response.

Machine integers (`u128`, `u64`) appear only in equality tests and in
`Display` formatting, never in arithmetic, so they are embedded as `Nat`.
The appraisal store `Arc<RwLock<HashMap<MessageId, u128>>>` is embedded as
an association list with first-match lookup; the check is embedded in
state-passing style (result paired with the post-state of the store) so
that frame properties can be stated.  A `.expect(...)` panic is made
explicit as a `CheckOutcome.panicked` result.
-/

namespace IndexerRs

/-- `tap_core::signed_message::MessageId`: the unique EIP-712 hash of a
signed receipt message, used as the query identifier.  Embedded as an
abstract numeric identifier. -/
abbrev MessageId := Nat

/-- The signed message body of a TAP receipt (`tap_core`'s `Receipt`):
allocation id, timestamp, nonce and the claimed fee `value : u128`.
Only `value` is read by the `Value` check. -/
structure Receipt where
  allocation_id : Nat
  timestamp_ns : Nat
  nonce : Nat
  value : Nat
deriving DecidableEq, Repr

/-- A signed receipt: the message together with its unique hash.
`unique_hash` stands for `SignedReceipt::unique_hash()` from the external
`tap_core` crate, which deterministically hashes the signed message. -/
structure SignedReceipt where
  message : Receipt
  unique_hash : MessageId
deriving DecidableEq, Repr

/-- `ReceiptWithState<Checking>`: a receipt undergoing checks.  The phase
tag carries no data relevant to the `Value` check. -/
structure ReceiptWithState where
  signed_receipt : SignedReceipt
deriving DecidableEq, Repr

/-- `tap_core::receipt::Context`: an extensible bag of per-request data.
The `Value` check ignores its context argument (bound `_` in the source),
so its payload is embedded abstractly. -/
structure Context where
  extensions : List (String × String)
deriving DecidableEq, Repr

/-- `AdapterError` from `crate::tap::context::error` (only the variant the
`Value` check constructs). -/
inductive AdapterError where
  | ValidationError (error : String)
deriving DecidableEq, Repr

/-- The payload of `tap_core`'s `CheckError::Failed(anyhow::Error)` as
built by the `Value` check: either a converted `AdapterError` or an ad-hoc
`anyhow!` message. -/
inductive AnyhowError where
  | adapter (e : AdapterError)
  | message (s : String)
deriving DecidableEq, Repr

/-- `tap_core::receipt::checks::CheckError` (the variant used here). -/
inductive CheckError where
  | failed (e : AnyhowError)
deriving DecidableEq, Repr

/-- The observable outcome of one run of a check: success, a typed check
failure, or a process abort via `panic!`/`.expect`. -/
inductive CheckOutcome where
  | ok
  | fail (e : CheckError)
  | panicked (msg : String)
deriving DecidableEq, Repr

/-- The contents of the appraisal store
`HashMap<MessageId, u128>`, embedded as an association list. -/
abbrev QueryAppraisals := List (MessageId × Nat)

/-- `HashMap::get`: first-match lookup, returning the stored value and
leaving the map untouched. -/
def hashMapGet (m : QueryAppraisals) (k : MessageId) : Option Nat :=
  match m with
  | [] => none
  | (k', v) :: rest => if k' = k then some v else hashMapGet rest k

/-- The `Value` check struct: an optional shared handle to the appraisal
store (`Option<Arc<RwLock<HashMap<MessageId, u128>>>>`). -/
structure Value where
  query_appraisals : Option QueryAppraisals
deriving DecidableEq, Repr

/-- The message of the `.expect` on an uninitialized appraisal store
(the Rust string-literal line continuation joins the two lines). -/
def expectMsg : String :=
  "Query appraisals should be initialized. The opposite should never happen when receipts value checking is enabled."

/-- The `anyhow!` format string of the value-mismatch failure,
instantiated at the two values. -/
def valueMismatchMsg (value appraised_value : Nat) : String :=
  "Value different from appraised_value. value: " ++ toString value ++
    ", appraised_value: " ++ toString appraised_value

/-- The validation error built when no appraisal is present. -/
def noAppraisalErr : CheckError :=
  CheckError.failed (AnyhowError.adapter
    (AdapterError.ValidationError "No appraised value found for query"))

/-- `Value::check` from `checks/value.rs`, in state-passing style: the
result together with the post-state of the appraisal store.  Mirrors the
source line by line: read `value` and `query_id` from the receipt; panic
via `.expect` if the store handle is `None`; acquire the read lock and
`get` the appraisal, failing with a `ValidationError` if absent; fail
with the mismatch message if the claimed value differs; otherwise `Ok`.
The read-lock `get` does not modify the map, so every branch returns the
store unchanged. -/
def Value.check (self : Value) (_ctx : Context) (receipt : ReceiptWithState) :
    CheckOutcome × Value :=
  let value := receipt.signed_receipt.message.value
  let query_id := receipt.signed_receipt.unique_hash
  match self.query_appraisals with
  | none => (CheckOutcome.panicked expectMsg, self)
  | some query_appraisals =>
    match hashMapGet query_appraisals query_id with
    | none => (CheckOutcome.fail noAppraisalErr, self)
    | some appraised_value =>
      if value ≠ appraised_value then
        (CheckOutcome.fail (CheckError.failed (AnyhowError.message
          (valueMismatchMsg value appraised_value))), self)
      else
        (CheckOutcome.ok, self)

/-- Two `Value` states with the same observable store contents: both
uninitialized, or both initialized with extensionally equal lookup. -/
def Value.sameContents (v₁ v₂ : Value) : Prop :=
  match v₁.query_appraisals, v₂.query_appraisals with
  | none, none => True
  | some a₁, some a₂ => ∀ k, hashMapGet a₁ k = hashMapGet a₂ k
  | _, _ => False

/-- Modelled from the spec: the Receipt State Machine / Manager is not
under `src/`; per §4.3 the Manager runs all configured checks and "the
receipt passes only if every check passes", so a receipt reaches
`Reserved` only if every check outcome is `ok`. -/
def reachesReserved (outcomes : List CheckOutcome) : Bool :=
  outcomes.all fun o => decide (o = CheckOutcome.ok)

/-- `Address` (alloy): embedded by its display string, which is all the
error formatting reads. -/
abbrev Address := String

/-- `DeploymentId` (thegraph): embedded by its display string. -/
abbrev DeploymentId := String

/-- `IndexerServiceError<E>` from `indexer_service.rs`.  Payload-carrying
variants store the display string of their payload (`anyhow::Error`, the
generic processing error `E`, or the offending token), which is all that
the status mapping and the `Display` implementation consume. -/
inductive IndexerServiceError where
  | noReceipt
  | receiptError (e : String)
  | serviceNotReady
  | noSignerForAllocation (a : Address)
  | noSignerForManifest (d : DeploymentId)
  | invalidRequest (e : String)
  | processingError (e : String)
  | unauthorized
  | invalidFreeQueryAuthToken (s : String)
  | failedToSignAttestation
  | failedToProvideAttestation
  | failedToProvideResponse
deriving DecidableEq, Repr

/-- HTTP status codes (`reqwest::StatusCode`), by their numeric value. -/
abbrev StatusCode := Nat

def SERVICE_UNAVAILABLE : StatusCode := 503
def PAYMENT_REQUIRED : StatusCode := 402
def UNAUTHORIZED : StatusCode := 401
def INTERNAL_SERVER_ERROR : StatusCode := 500
def BAD_REQUEST : StatusCode := 400

/-- `impl From<&IndexerServiceError<E>> for StatusCode`, with the match
arms in source order. -/
def StatusCode.ofError (err : IndexerServiceError) : StatusCode :=
  match err with
  | .serviceNotReady => SERVICE_UNAVAILABLE
  | .noReceipt => PAYMENT_REQUIRED
  | .unauthorized => UNAUTHORIZED
  | .noSignerForAllocation _ => INTERNAL_SERVER_ERROR
  | .noSignerForManifest _ => INTERNAL_SERVER_ERROR
  | .failedToSignAttestation => INTERNAL_SERVER_ERROR
  | .failedToProvideAttestation => INTERNAL_SERVER_ERROR
  | .failedToProvideResponse => INTERNAL_SERVER_ERROR
  | .receiptError _ => BAD_REQUEST
  | .invalidRequest _ => BAD_REQUEST
  | .invalidFreeQueryAuthToken _ => BAD_REQUEST
  | .processingError _ => BAD_REQUEST

/-- The `Display` implementation derived by `thiserror` from the
`#[error("...")]` attributes: `{0}` interpolates the payload's display
string. -/
def IndexerServiceError.toString : IndexerServiceError → String
  | .noReceipt => "No receipt provided with the request"
  | .receiptError e => "Issues with provided receipt: " ++ e
  | .serviceNotReady => "Service is not ready yet, try again in a moment"
  | .noSignerForAllocation a => "No attestation signer found for allocation `" ++ a ++ "`"
  | .noSignerForManifest d => "No attestation signer found for manifest `" ++ d ++ "`"
  | .invalidRequest e => "Invalid request body: " ++ e
  | .processingError e => "Error while processing the request: " ++ e
  | .unauthorized => "No receipt or free query auth token provided"
  | .invalidFreeQueryAuthToken s => "Invalid free query auth token: " ++ s
  | .failedToSignAttestation => "Failed to sign attestation"
  | .failedToProvideAttestation => "Failed to provide attestation"
  | .failedToProvideResponse => "Failed to provide response"

/-- `impl IntoResponse for IndexerServiceError`: the response is the pair
of the mapped status code and the error's display string as body. -/
def IndexerServiceError.into_response (e : IndexerServiceError) :
    StatusCode × String :=
  (StatusCode.ofError e, e.toString)

/-- Helper: every branch of `Value::check` only reads the appraisal store,
so the post-state equals the pre-state. -/
theorem Value.check_snd (v : Value) (ctx : Context) (r : ReceiptWithState) :
    (Value.check v ctx r).2 = v := by
  unfold Value.check
  dsimp only
  split
  · rfl
  · split
    · rfl
    · split <;> rfl

/-- Claim C1: for every receipt whose query id has an appraisal present in
the appraisal store, the Value check succeeds if and only if the receipt's
claimed value equals the appraised value exactly; any difference makes the
check fail with the value-mismatch reason. -/
theorem value_check_exact_equality (v : Value) (ctx : Context)
    (r : ReceiptWithState) (a : QueryAppraisals) (appraised : Nat)
    (hsome : v.query_appraisals = some a)
    (hget : hashMapGet a r.signed_receipt.unique_hash = some appraised) :
    ((Value.check v ctx r).1 = CheckOutcome.ok ↔
      r.signed_receipt.message.value = appraised) ∧
    (r.signed_receipt.message.value ≠ appraised →
      (Value.check v ctx r).1 = CheckOutcome.fail (CheckError.failed
        (AnyhowError.message
          (valueMismatchMsg r.signed_receipt.message.value appraised)))) := by
  unfold Value.check
  simp only [hsome, hget]
  by_cases hv : r.signed_receipt.message.value = appraised
  · simp [hv]
  · simp [hv]

/-- Witness for C1: a store holding appraisal 100 for query id 5 and a
receipt claiming value 100 with that hash. -/
theorem value_check_exact_equality_witness :
    ((Value.check ⟨some [(5, 100)]⟩ ⟨[]⟩ ⟨⟨⟨0, 0, 0, 100⟩, 5⟩⟩).1 =
        CheckOutcome.ok ↔ (100 : Nat) = 100) ∧
    ((100 : Nat) ≠ 100 →
      (Value.check ⟨some [(5, 100)]⟩ ⟨[]⟩ ⟨⟨⟨0, 0, 0, 100⟩, 5⟩⟩).1 =
        CheckOutcome.fail (CheckError.failed (AnyhowError.message
          (valueMismatchMsg 100 100)))) :=
  value_check_exact_equality ⟨some [(5, 100)]⟩ ⟨[]⟩ ⟨⟨⟨0, 0, 0, 100⟩, 5⟩⟩
    [(5, 100)] 100 rfl (by decide)

/-- Claim C2: for every receipt whose query id has no appraisal in the
store, the Value check fails with the no-appraisal-found reason (it does
not succeed and does not panic), so the receipt never reaches `Reserved`
under the spec-modelled pipeline. -/
theorem value_check_no_appraisal (v : Value) (ctx : Context)
    (r : ReceiptWithState) (a : QueryAppraisals)
    (hsome : v.query_appraisals = some a)
    (hget : hashMapGet a r.signed_receipt.unique_hash = none) :
    (Value.check v ctx r).1 = CheckOutcome.fail noAppraisalErr ∧
    (Value.check v ctx r).1 ≠ CheckOutcome.ok ∧
    (∀ m, (Value.check v ctx r).1 ≠ CheckOutcome.panicked m) ∧
    (∀ rest, reachesReserved ((Value.check v ctx r).1 :: rest) = false) := by
  unfold Value.check
  simp [hsome, hget, reachesReserved]

/-- Witness for C2: an initialized but empty store, so the lookup of any
query id misses. -/
theorem value_check_no_appraisal_witness :
    (Value.check ⟨some []⟩ ⟨[]⟩ ⟨⟨⟨0, 0, 0, 7⟩, 3⟩⟩).1 =
      CheckOutcome.fail noAppraisalErr ∧
    (Value.check ⟨some []⟩ ⟨[]⟩ ⟨⟨⟨0, 0, 0, 7⟩, 3⟩⟩).1 ≠ CheckOutcome.ok ∧
    (∀ m, (Value.check ⟨some []⟩ ⟨[]⟩ ⟨⟨⟨0, 0, 0, 7⟩, 3⟩⟩).1 ≠
      CheckOutcome.panicked m) ∧
    (∀ rest, reachesReserved
      ((Value.check ⟨some []⟩ ⟨[]⟩ ⟨⟨⟨0, 0, 0, 7⟩, 3⟩⟩).1 :: rest) = false) :=
  value_check_no_appraisal ⟨some []⟩ ⟨[]⟩ ⟨⟨⟨0, 0, 0, 7⟩, 3⟩⟩ [] rfl rfl

/-- Counterexample to C3 as stated: with store `{1 ↦ 100}` and a matching
receipt for query id 1, the first check succeeds, yet the post-state store
still holds the appraisal — a second lookup observes `some 100`, not
absence, because the source uses `get` under a read lock, not a removing
`take`. -/
theorem value_check_take_counterexample :
    (Value.check ⟨some [(1, 100)]⟩ ⟨[]⟩ ⟨⟨⟨0, 0, 0, 100⟩, 1⟩⟩).1 =
      CheckOutcome.ok ∧
    (Value.check ⟨some [(1, 100)]⟩ ⟨[]⟩ ⟨⟨⟨0, 0, 0, 100⟩, 1⟩⟩).2 =
      ⟨some [(1, 100)]⟩ ∧
    hashMapGet [(1, 100)] 1 = some 100 := by
  decide

/-- Claim C3 (amended): the Value check obtains the appraisal by a
non-removing read (`get` under a read lock), so after one check the store
contents are unchanged and a second check of the same receipt returns the
same outcome. -/
theorem value_check_get_not_take (v : Value) (ctx : Context)
    (r : ReceiptWithState) :
    (Value.check v ctx r).2.query_appraisals = v.query_appraisals ∧
    (Value.check (Value.check v ctx r).2 ctx r).1 = (Value.check v ctx r).1 := by
  rw [Value.check_snd]
  exact ⟨rfl, rfl⟩

/-- Counterexample to C4 as stated: with an uninitialized (None) store,
the check aborts via `.expect` — an execution of the check panics. -/
theorem value_check_no_panic_counterexample :
    (Value.check ⟨none⟩ ⟨[]⟩ ⟨⟨⟨0, 0, 0, 1⟩, 1⟩⟩).1 =
      CheckOutcome.panicked expectMsg := by
  rfl

/-- Claim C4 (amended): when the appraisal store is uninitialized the
Value check panics with the initialization `.expect` message for every
receipt; it never returns a check failure (in particular no
service-not-ready failure). -/
theorem value_check_uninitialized_panics (ctx : Context)
    (r : ReceiptWithState) :
    (Value.check ⟨none⟩ ctx r).1 = CheckOutcome.panicked expectMsg ∧
    ∀ e, (Value.check ⟨none⟩ ctx r).1 ≠ CheckOutcome.fail e :=
  ⟨rfl, fun _ h => CheckOutcome.noConfusion h⟩

/-- Counterexample to C5 as stated: `NoSignerForAllocation` maps to 500
(internal server error), which is none of payment-required (402),
unauthorized (401), bad-request (400) or service-unavailable (503). -/
theorem status_code_four_classes_counterexample :
    StatusCode.ofError (.noSignerForAllocation "0xdeadbeef") =
      INTERNAL_SERVER_ERROR ∧
    INTERNAL_SERVER_ERROR ≠ PAYMENT_REQUIRED ∧
    INTERNAL_SERVER_ERROR ≠ UNAUTHORIZED ∧
    INTERNAL_SERVER_ERROR ≠ BAD_REQUEST ∧
    INTERNAL_SERVER_ERROR ≠ SERVICE_UNAVAILABLE := by
  decide

/-- Claim C5 (amended): every `IndexerServiceError` variant maps to one of
exactly five status classes: payment-required, unauthorized, bad-request,
service-unavailable, or internal-server-error. -/
theorem status_code_five_classes (e : IndexerServiceError) :
    StatusCode.ofError e = PAYMENT_REQUIRED ∨
    StatusCode.ofError e = UNAUTHORIZED ∨
    StatusCode.ofError e = BAD_REQUEST ∨
    StatusCode.ofError e = SERVICE_UNAVAILABLE ∨
    StatusCode.ofError e = INTERNAL_SERVER_ERROR := by
  cases e <;> simp [StatusCode.ofError, PAYMENT_REQUIRED, UNAUTHORIZED,
    BAD_REQUEST, SERVICE_UNAVAILABLE, INTERNAL_SERVER_ERROR]

/-- Claim C6: `ServiceNotReady` maps to service-unavailable (503), and
that status differs from the one assigned to each user/payment variant:
no receipt, receipt error, unauthorized, invalid request. -/
theorem service_not_ready_distinct_status :
    StatusCode.ofError .serviceNotReady = SERVICE_UNAVAILABLE ∧
    StatusCode.ofError .noReceipt ≠ SERVICE_UNAVAILABLE ∧
    (∀ s, StatusCode.ofError (.receiptError s) ≠ SERVICE_UNAVAILABLE) ∧
    StatusCode.ofError .unauthorized ≠ SERVICE_UNAVAILABLE ∧
    (∀ s, StatusCode.ofError (.invalidRequest s) ≠ SERVICE_UNAVAILABLE) :=
  ⟨rfl, by decide,
    fun s => by simp [StatusCode.ofError, BAD_REQUEST, SERVICE_UNAVAILABLE],
    by decide,
    fun s => by simp [StatusCode.ofError, BAD_REQUEST, SERVICE_UNAVAILABLE]⟩

/-- Counterexample to C7 as stated: the response body of `ReceiptError`
is its thiserror `Display` string, which interpolates the wrapped inner
error payload; the body is not a fixed reason (it varies with the
payload). -/
theorem response_body_leak_counterexample :
    (IndexerServiceError.into_response
      (.receiptError "inner anyhow payload")).2 =
      "Issues with provided receipt: inner anyhow payload" ∧
    (IndexerServiceError.into_response (.receiptError "a")).2 ≠
      (IndexerServiceError.into_response (.receiptError "b")).2 := by
  exact ⟨rfl, by decide⟩

/-- Claim C7 (amended): user/payment error variants that wrap an inner
payload (receipt error, invalid request, processing error, invalid free
query auth token) produce a response body that interpolates that payload;
only the payload-free variants (no receipt, unauthorized) have fixed
reason bodies. -/
theorem response_body_interpolates_payload :
    (∀ s, (IndexerServiceError.into_response (.receiptError s)).2 =
      "Issues with provided receipt: " ++ s) ∧
    (∀ s, (IndexerServiceError.into_response (.invalidRequest s)).2 =
      "Invalid request body: " ++ s) ∧
    (∀ s, (IndexerServiceError.into_response (.processingError s)).2 =
      "Error while processing the request: " ++ s) ∧
    (∀ s, (IndexerServiceError.into_response (.invalidFreeQueryAuthToken s)).2 =
      "Invalid free query auth token: " ++ s) ∧
    (IndexerServiceError.into_response .noReceipt).2 =
      "No receipt provided with the request" ∧
    (IndexerServiceError.into_response .unauthorized).2 =
      "No receipt or free query auth token provided" :=
  ⟨fun _ => rfl, fun _ => rfl, fun _ => rfl, fun _ => rfl, rfl, rfl⟩

/-- Claim C8: the Value check is deterministic — on stores with the same
observable contents and the same receipt, two runs return the same
outcome. -/
theorem value_check_deterministic :
    ∀ (v₁ v₂ : Value), Value.sameContents v₁ v₂ →
      ∀ (ctx : Context) (r : ReceiptWithState),
        (Value.check v₁ ctx r).1 = (Value.check v₂ ctx r).1
  | ⟨none⟩, ⟨none⟩, _, _, _ => rfl
  | ⟨none⟩, ⟨some _⟩, h, _, _ => h.elim
  | ⟨some _⟩, ⟨none⟩, h, _, _ => h.elim
  | ⟨some a₁⟩, ⟨some a₂⟩, h, ctx, r => by
      unfold Value.check
      simp only
      rw [show hashMapGet a₁ r.signed_receipt.unique_hash
            = hashMapGet a₂ r.signed_receipt.unique_hash
          from h r.signed_receipt.unique_hash]
      cases hashMapGet a₂ r.signed_receipt.unique_hash with
      | none => rfl
      | some av =>
        by_cases hv : r.signed_receipt.message.value = av <;> simp [hv]

/-- Witness for C8: two different association lists with the same
observable mapping (the shadowed second binding of key 1 is invisible to
`get`) yield the same outcome. -/
theorem value_check_deterministic_witness :
    Value.sameContents ⟨some [(1, 2)]⟩ ⟨some [(1, 2), (1, 3)]⟩ ∧
    (Value.check ⟨some [(1, 2)]⟩ ⟨[]⟩ ⟨⟨⟨0, 0, 0, 2⟩, 1⟩⟩).1 =
      (Value.check ⟨some [(1, 2), (1, 3)]⟩ ⟨[]⟩ ⟨⟨⟨0, 0, 0, 2⟩, 1⟩⟩).1 := by
  have h : Value.sameContents ⟨some [(1, 2)]⟩ ⟨some [(1, 2), (1, 3)]⟩ := by
    show ∀ k, hashMapGet [(1, 2)] k = hashMapGet [(1, 2), (1, 3)] k
    intro k
    by_cases hk : 1 = k <;> simp [hashMapGet, hk]
  exact ⟨h, value_check_deterministic ⟨some [(1, 2)]⟩ ⟨some [(1, 2), (1, 3)]⟩ h
    ⟨[]⟩ ⟨⟨⟨0, 0, 0, 2⟩, 1⟩⟩⟩

/-- Claim C9: the Value check never modifies the appraisal store — the
post-state equals the pre-state exactly, so the mapping from query ids to
appraised values (including the consulted entry) is preserved. -/
theorem value_check_frame (v : Value) (ctx : Context) (r : ReceiptWithState) :
    (Value.check v ctx r).2 = v :=
  Value.check_snd v ctx r

/-- Claim C10: the Value check ignores its `Context` argument — any two
contexts yield identical results on the same store and receipt. -/
theorem value_check_context_independent (v : Value) (ctx₁ ctx₂ : Context)
    (r : ReceiptWithState) :
    Value.check v ctx₁ r = Value.check v ctx₂ r :=
  rfl

end IndexerRs

